import Mathlib

/-!
Verification of the autocoach backend (document-grounded quiz engine).

Shallow embedding of the Python sources under `backend/app`:
Python `str` values are Lean `String`s (a wrapper around `List Char`);
the external record store (Supabase tables) is an explicit `DB` state threaded
through the session-manager operations; the LLM oracles (`call_kimi`,
`call_openai`), the JSON parser (`json.loads`), the LangChain text splitter,
and the uuid generator are uninterpreted function parameters, since their code
is not part of this repository.  Fallible operations return `Except` paired
with the (possibly updated) store state.  `float` scores are modelled as exact
rationals.
-/

/-! ## Python string primitives (ASCII fragment)

`str.strip`, `str.lower`, `str.upper` restricted to the ASCII range, which is
all that survives the sanitizer below and all the evaluators compare against.
-/

/-- Python whitespace characters recognised by `str.strip` (ASCII fragment). -/
def pyWhitespace (c : Char) : Bool :=
  c == ' ' || c == '\t' || c == '\n' || c == '\r' || c == '\x0b' || c == '\x0c'

/-- Python `str.strip()`: drop leading and trailing whitespace. -/
def pyStrip (s : String) : String :=
  ⟨((s.data.dropWhile pyWhitespace).reverse.dropWhile pyWhitespace).reverse⟩

/-- Python `str.lower()` (ASCII fragment). -/
def pyLower (s : String) : String := ⟨s.data.map Char.toLower⟩

/-- Python `str.upper()` (ASCII fragment). -/
def pyUpper (s : String) : String := ⟨s.data.map Char.toUpper⟩

/-! ## services/text_extraction.py -/

/-- The character condition of the sanitizer loop in `sanitize_text`:
printable ASCII (32-126), tab (9), newline (10), carriage return (13). -/
def keepChar (c : Char) : Bool :=
  (32 ≤ c.toNat && c.toNat ≤ 126) || c.toNat == 9 || c.toNat == 10 || c.toNat == 13

/-- Embeds `sanitize_text` from `services/text_extraction.py`: early-return on the
empty string, two `replace('\x00', '')` passes, then the filtering loop
keeping only `keepChar` characters. -/
def sanitize_text (text : String) : String :=
  if text = "" then text
  else
    let t1 : List Char := text.data.filter (fun c => c.toNat ≠ 0)
    let t2 : List Char := t1.filter (fun c => c.toNat ≠ 0)
    ⟨t2.filter keepChar⟩

/-- The character set of the claim, written from the words of the claim: code point in
the set 9, 10, 13 or in the interval 32-126. -/
def allowedCharSpec (c : Char) : Bool :=
  c.toNat = 9 || c.toNat = 10 || c.toNat = 13 || (32 ≤ c.toNat && c.toNat ≤ 126)

/-! ## services/answer_evaluator.py : normalization and the mcq / true_false evaluators -/

/-- Embeds `normalize_answer` from `services/answer_evaluator.py`: strip then lower. -/
def normalize_answer (answer : String) : String := pyLower (pyStrip answer)

/-- Embeds `normalize_mcq_answer` from `services/answer_evaluator.py`.  The final
branch (`if len == 1 and normalized in "ABCD"`) returns `normalized` either
way in the source and is embedded as such. -/
def normalize_mcq_answer (answer : String) : String :=
  let normalized := pyUpper (pyStrip answer)
  let normalized :=
    if normalized.data.length > 1 ∧
        (normalized.data.get? 1 = some ')' ∨ normalized.data.get? 1 = some '.' ∨
         normalized.data.get? 1 = some ' ')
    then ⟨normalized.data.take 1⟩ else normalized
  if normalized.data.length = 1 ∧
      (match normalized.data.head? with
       | some c => "ABCD".data.contains c
       | none => false) = true
  then normalized else normalized

/-- Embeds `evaluate_mcq` from `services/answer_evaluator.py`:
returns `(is_correct, feedback)`. -/
def evaluate_mcq (user_answer correct_answer : String) : Bool × String :=
  let user_normalized := normalize_mcq_answer user_answer
  let correct_normalized := normalize_mcq_answer correct_answer
  let is_correct := user_normalized == correct_normalized
  (is_correct,
   if is_correct then "Correct! Well done."
   else "Incorrect. The correct answer is " ++ correct_normalized ++ ".")

/-- The mcq normalization of the claim, written from the words of the claim: trim,
uppercase, and when the second character is a closing parenthesis, a period,
or a space, strip the trailing option label down to the leading letter. -/
def mcqNormalizeSpec (answer : String) : String :=
  let t := pyUpper (pyStrip answer)
  if t.data.length > 1 ∧
      (t.data.get? 1 = some ')' ∨ t.data.get? 1 = some '.' ∨ t.data.get? 1 = some ' ')
  then ⟨t.data.take 1⟩ else t

/-- The `evaluate_true_false` synonym sets from `services/answer_evaluator.py`. -/
def trueVariations : List String := ["true", "t", "yes", "1", "correct", "right"]

/-- The false-synonym set. -/
def falseVariations : List String :=
  ["false", "f", "no", "0", "incorrect", "wrong", "not true"]

/-- Embeds `evaluate_true_false` from `services/answer_evaluator.py`:
returns `(is_correct, feedback)`. -/
def evaluate_true_false (user_answer correct_answer : String) : Bool × String :=
  let user_normalized := normalize_answer user_answer
  let user_bool : Option Bool :=
    if trueVariations.contains user_normalized then some true
    else if falseVariations.contains user_normalized then some false
    else none
  let correct_normalized := normalize_answer correct_answer
  let correct_bool := trueVariations.contains correct_normalized
  match user_bool with
  | none =>
      (false,
       "Could not determine your answer. Please answer with \x27true\x27 or \x27false\x27.")
  | some ub =>
      let is_correct := ub == correct_bool
      (is_correct,
       if is_correct then "Correct! The statement is " ++ correct_answer ++ "."
       else "Incorrect. The statement is " ++ correct_answer ++ ".")

/-- The synonym-set mapping of a user answer per the claim, written from the
words of the claim: trimmed lowercased answer looked up in the two fixed sets, `none` when
in neither. -/
def tfUserValueSpec (user_answer : String) : Option Bool :=
  let u := pyLower (pyStrip user_answer)
  if trueVariations.contains u then some true
  else if falseVariations.contains u then some false
  else none

/-! ## services/answer_evaluator.py : the free_text evaluator

`call_kimi` and `call_openai` (from `services/llm.py`) are uninterpreted
oracle parameters `ck : system → user → response` and
`co : system → user → temperature → response`; both return `""` on failure,
exactly as the `except` blocks of the source do.  `json.loads` restricted to the
two fields the code reads (`is_correct`, `feedback`) is the uninterpreted
parameter `jl`; `none` models a `JSONDecodeError`.
-/

/-- The system prompt used for free-text evaluation calls. -/
def tutorSystemPrompt : String :=
  "You are an expert tutor providing constructive feedback on student answers."

/-- Embeds `FREE_TEXT_EVAL_PROMPT.format(...)` from `services/answer_evaluator.py`. -/
def freeTextEvalPrompt (question_text correct_answer user_answer : String) : String :=
  "You are an expert tutor evaluating a student\x27s answer to a quiz question.\n\nQuestion: "
  ++ question_text
  ++ "\n\nModel Answer (what a good answer should include): "
  ++ correct_answer
  ++ "\n\nStudent\x27s Answer: "
  ++ user_answer
  ++ "\n\nEvaluate the student\x27s answer:\n1. Compare it to the model answer\n2. Determine if it demonstrates understanding (doesn\x27t need to be word-for-word)\n3. Score as correct if the key concepts are present, partially correct if some concepts are present, or incorrect if wrong/missing\n\nReturn ONLY a JSON object in this exact format:\n\x7b\n  \"is_correct\": true/false,\n  \"feedback\": \"Constructive feedback explaining what was good and what could be improved\"\n\x7d\n\nRules:\n- is_correct: true if the answer captures the main points, false otherwise\n- feedback: Be encouraging but specific about what was missing or incorrect\n- The student doesn\x27t need to match the model answer exactly, just convey the same understanding\n"

/-- The primary-then-fallback oracle call of `evaluate_free_text`: Kimi first,
OpenAI (temperature 0.3) when the Kimi response is empty. -/
def freeTextResponse (ck : String → String → String) (co : String → String → ℚ → String)
    (user_answer correct_answer question_text : String) : String :=
  let prompt := freeTextEvalPrompt question_text correct_answer user_answer
  let response := ck tutorSystemPrompt prompt
  if response == "" then co tutorSystemPrompt prompt (3/10) else response

/-- The fence-stripping cleanup applied to an oracle response before JSON
parsing in `evaluate_free_text`. -/
def cleanResponse (response : String) : String :=
  let cleaned := pyStrip response
  let cleaned := if cleaned.startsWith "```json" then cleaned.drop 7 else cleaned
  let cleaned := if cleaned.startsWith "```" then cleaned.drop 3 else cleaned
  let cleaned := if cleaned.endsWith "```" then cleaned.dropRight 3 else cleaned
  pyStrip cleaned

/-- Embeds `evaluate_free_text` from `services/answer_evaluator.py`:
returns `(is_correct, feedback, explanation)` where the explanation is always
the stored correct answer. -/
def evaluate_free_text (ck : String → String → String) (co : String → String → ℚ → String)
    (jl : String → Option (Option Bool × Option String))
    (user_answer correct_answer question_text : String) : Bool × String × String :=
  let response := freeTextResponse ck co user_answer correct_answer question_text
  if response == "" then
    if (pyStrip user_answer).data.length < 10 then
      (false, "Your answer seems too brief. Please provide more detail.", correct_answer)
    else
      (true, "Answer received. (Automated evaluation unavailable)", correct_answer)
  else
    match jl (cleanResponse response) with
    | none => (true, "Answer received. (Evaluation parsing failed)", correct_answer)
    | some fields =>
        (fields.1.getD false, fields.2.getD "Answer evaluated.", correct_answer)

/-- The shape of the dictionary returned by `evaluate_answer`. -/
structure EvalResult where
  is_correct : Bool
  feedback : String
  explanation : Option String
deriving Repr, DecidableEq

/-- Embeds `evaluate_answer` from `services/answer_evaluator.py`: routes to the
per-type evaluator on the lowercased question type. -/
def evaluate_answer (ck : String → String → String) (co : String → String → ℚ → String)
    (jl : String → Option (Option Bool × Option String))
    (question_type user_answer correct_answer question_text : String) : EvalResult :=
  let qt := pyLower question_type
  if qt == "mcq" then
    let r := evaluate_mcq user_answer correct_answer
    { is_correct := r.1, feedback := r.2, explanation := none }
  else if qt == "true_false" || qt == "truefalse" || qt == "tf" then
    let r := evaluate_true_false user_answer correct_answer
    { is_correct := r.1, feedback := r.2, explanation := none }
  else if qt == "free_text" || qt == "freetext" || qt == "free" || qt == "text" then
    let r := evaluate_free_text ck co jl user_answer correct_answer question_text
    { is_correct := r.1, feedback := r.2.1, explanation := some r.2.2 }
  else
    let is_correct := normalize_answer user_answer == normalize_answer correct_answer
    { is_correct := is_correct,
      feedback := if is_correct then "Correct!" else "Incorrect.",
      explanation := none }

/-! ## services/chunking.py

The LangChain `RecursiveCharacterTextSplitter` is external code; its
`split_text` method is the uninterpreted parameter
`split_text : chunk_size → chunk_overlap → text → segments`.
-/

/-- One element of the list returned by `chunk_text`. -/
structure ChunkRec where
  content : String
  chunk_index : Nat
  metadata : List (String × String)
deriving Repr, DecidableEq

/-- Embeds `chunk_text` from `services/chunking.py`: blank-input early return, split,
then the list comprehension filtering blank segments.  Note the source takes
`chunk_index` from `enumerate(chunks)`, which runs over the pre-filter
segment list. -/
def chunk_text (split_text : Nat → Nat → String → List String)
    (text : String) (chunk_size : Nat := 1000) (chunk_overlap : Nat := 200) : List ChunkRec :=
  if text = "" ∨ pyStrip text = "" then []
  else
    let chunks := split_text chunk_size chunk_overlap text
    (chunks.enum.filter (fun ic => !(ic.2 == "") && !(pyStrip ic.2 == ""))).map
      (fun ic => { content := pyStrip ic.2, chunk_index := ic.1, metadata := [] })

/-! ## core/qdrant.py

The Qdrant collection is a list of stored points; `uuid4` is the
uninterpreted parameter `genId` giving the id generated by the i-th call.
Embedding vectors (`list[float]`) are modelled as lists of rationals.
-/

/-- An embedding vector. -/
abbrev EmbVec := List ℚ

/-- The payload attached to a stored point. -/
structure PointPayload where
  document_id : String
  content : String
  chunk_index : Nat
  metadata : List (String × String)
deriving Repr, DecidableEq

/-- A point in the Qdrant collection. -/
structure StoredPoint where
  id : String
  vector : EmbVec
  payload : PointPayload
deriving Repr, DecidableEq

/-- Embeds `store_vectors` from `core/qdrant.py`: empty-list early return, length
check, then build points and upsert, returning the generated point ids. -/
def store_vectors (genId : Nat → String) (document_id : String)
    (chunks : List ChunkRec) (embeddings : List EmbVec)
    (stored : List StoredPoint) : Except String (List String) × List StoredPoint :=
  if chunks = [] ∨ embeddings = [] then (.ok [], stored)
  else if chunks.length ≠ embeddings.length then
    (.error "Chunks and embeddings must have the same length", stored)
  else
    let points := (chunks.zip embeddings).enum.map (fun ie =>
      { id := genId ie.1, vector := ie.2.2,
        payload := { document_id := document_id, content := ie.2.1.content,
                     chunk_index := ie.2.1.chunk_index,
                     metadata := ie.2.1.metadata } : StoredPoint })
    (.ok (points.map (fun pt => pt.id)), stored ++ points)

/-! ## services/session_manager.py

The two Supabase tables are the explicit state `DB`.  `filter`/`head?` models
`.select().eq(...)` + `data[0]`; `List.map` with a guarded record update
models `.update().eq(...)`; sorting by `question_number` models
`.order("question_number")`.  Timestamps are plain strings supplied as the
parameter `now`; `uuid4` calls are the parameters `session_id` / `qids`.
Store writes always succeed in this model (store-level failures are outside
the embedding).  `round(x, 1)` on the float score is modelled as exact
rational rounding to one decimal with round-half-to-even.
-/

/-- A row of the `quiz_sessions` table. -/
structure Session where
  id : String
  user_id : String
  document_id : String
  status : String
  difficulty : String
  total_questions : Nat
  answered_questions : Nat
  correct_answers : Nat
  started_at : String
  completed_at : Option String
deriving Repr, DecidableEq

/-- A row of the `questions` table. -/
structure Question where
  id : String
  session_id : String
  question_number : Nat
  question_type : String
  question_text : String
  options : Option (List String)
  correct_answer : String
  explanation : Option String
  user_answer : Option String
  is_correct : Option Bool
  input_method : Option String
  answered_at : Option String
deriving Repr, DecidableEq

/-- The record store state. -/
structure DB where
  quiz_sessions : List Session
  questions : List Question
deriving Repr, DecidableEq

/-- Models `.select("*").eq("id", session_id).eq("user_id", user_id)` + `data[0]`. -/
def findSession (db : DB) (session_id user_id : String) : Option Session :=
  (db.quiz_sessions.filter (fun s => s.id == session_id && s.user_id == user_id)).head?

/-- Models `.select("*").eq("id", question_id).eq("session_id", session_id)` + `data[0]`. -/
def findQuestion (db : DB) (question_id session_id : String) : Option Question :=
  (db.questions.filter (fun q => q.id == question_id && q.session_id == session_id)).head?

/-- Stable insertion of a question into a list sorted by `question_number`. -/
def insertByNumber (q : Question) : List Question → List Question
  | [] => [q]
  | x :: xs =>
      if q.question_number ≤ x.question_number then q :: x :: xs
      else x :: insertByNumber q xs

/-- Stable sort by `question_number`, modelling `.order("question_number")`. -/
def sortByNumber : List Question → List Question
  | [] => []
  | x :: xs => insertByNumber x (sortByNumber xs)

/-- The `.is_("user_answer", None).order("question_number").limit(1)` query. -/
def firstUnanswered (db : DB) (session_id : String) : Option Question :=
  (sortByNumber (db.questions.filter
    (fun q => q.session_id == session_id && q.user_answer.isNone))).head?

/-- Round-half-to-even to an integer, as the Python `round` builtin. -/
def roundHalfEven (q : ℚ) : ℤ :=
  let f := q.floor
  let r := q - (f : ℚ)
  if r < 1/2 then f
  else if 1/2 < r then f + 1
  else if f % 2 = 0 then f else f + 1

/-- The Python `round(x, 1)` on the exact rational value. -/
def pyRound1 (q : ℚ) : ℚ := (roundHalfEven (10 * q) : ℚ) / 10

/-- One entry of the question list of `get_session`. -/
structure QuestionDetail where
  question_id : String
  question_number : Nat
  question_type : String
  question_text : String
  user_answer : Option String
  is_correct : Option Bool
  correct_answer : String
  explanation : Option String
deriving Repr, DecidableEq

/-- The dictionary returned by `get_session`. -/
structure SessionView where
  session_id : String
  document_id : String
  status : String
  difficulty : String
  total_questions : Nat
  answered_questions : Nat
  correct_answers : Nat
  score_percentage : Option ℚ
  questions : List QuestionDetail
  started_at : String
  completed_at : Option String
deriving Repr, DecidableEq

/-- Embeds `get_session` from `services/session_manager.py`. -/
def get_session (session_id user_id : String) (db : DB) : Option SessionView :=
  match findSession db session_id user_id with
  | none => none
  | some session =>
      let qs := sortByNumber (db.questions.filter (fun q => q.session_id == session_id))
      let score_percentage : Option ℚ :=
        if session.status = "completed" ∧ 0 < session.total_questions then
          some (pyRound1
            (((session.correct_answers : ℚ) / (session.total_questions : ℚ)) * 100))
        else none
      some { session_id := session.id, document_id := session.document_id,
             status := session.status, difficulty := session.difficulty,
             total_questions := session.total_questions,
             answered_questions := session.answered_questions,
             correct_answers := session.correct_answers,
             score_percentage := score_percentage,
             questions := qs.map (fun q =>
               { question_id := q.id, question_number := q.question_number,
                 question_type := q.question_type, question_text := q.question_text,
                 user_answer := q.user_answer, is_correct := q.is_correct,
                 correct_answer := q.correct_answer, explanation := q.explanation }),
             started_at := session.started_at, completed_at := session.completed_at }

/-- The `next_question` payload shape (also used for the first question of a
freshly created session). -/
structure NextQuestion where
  question_id : String
  question_number : Nat
  total_questions : Nat
  question_type : String
  question_text : String
  options : Option (List String)
  difficulty : String
deriving Repr, DecidableEq

/-- The `result` part of the return value of `submit_answer`. -/
structure SubmitResult where
  is_correct : Bool
  correct_answer : String
  explanation : Option String
  score_so_far : Nat
  total_answered : Nat
  feedback : String
deriving Repr, DecidableEq

/-- The full return value of `submit_answer`. -/
structure SubmitResponse where
  result : SubmitResult
  next_question : Option NextQuestion
  session_complete : Bool
deriving Repr, DecidableEq

/-- Embeds `submit_answer` from `services/session_manager.py`: validation raises are
the `Except.error` cases, each leaving the store unchanged; the success path
updates the question row, then the session row, then fetches the next
unanswered question. -/
def submit_answer (ck : String → String → String) (co : String → String → ℚ → String)
    (jl : String → Option (Option Bool × Option String)) (now : String)
    (session_id user_id question_id answer input_method : String)
    (db : DB) : Except String SubmitResponse × DB :=
  match findSession db session_id user_id with
  | none => (.error "Session not found", db)
  | some session =>
    if session.status ≠ "active" then
      (.error ("Session is not active (status: " ++ session.status ++ ")"), db)
    else
      match findQuestion db question_id session_id with
      | none => (.error "Question not found", db)
      | some question =>
        match question.user_answer with
        | some _ => (.error "Question already answered", db)
        | none =>
          let eval_result := evaluate_answer ck co jl question.question_type answer
            question.correct_answer question.question_text
          let is_correct := eval_result.is_correct
          let feedback := eval_result.feedback
          let db1 : DB := { db with questions := db.questions.map (fun q =>
            if q.id == question_id then
              { q with user_answer := some answer, is_correct := some is_correct,
                       input_method := some input_method, answered_at := some now }
            else q) }
          let new_answered := session.answered_questions + 1
          let new_correct := session.correct_answers + (if is_correct then 1 else 0)
          let is_complete : Bool := decide (session.total_questions ≤ new_answered)
          let db2 : DB := { db1 with quiz_sessions := db1.quiz_sessions.map (fun s =>
            if s.id == session_id then
              { s with answered_questions := new_answered, correct_answers := new_correct,
                       status := if is_complete then "completed" else s.status,
                       completed_at := if is_complete then some now else s.completed_at }
            else s) }
          let next_question : Option NextQuestion :=
            if is_complete then none
            else
              match firstUnanswered db2 session_id with
              | none => none
              | some nq =>
                  some { question_id := nq.id, question_number := nq.question_number,
                         total_questions := session.total_questions,
                         question_type := nq.question_type,
                         question_text := nq.question_text, options := nq.options,
                         difficulty := session.difficulty }
          (.ok { result := { is_correct := is_correct,
                             correct_answer := question.correct_answer,
                             explanation := question.explanation,
                             score_so_far := new_correct,
                             total_answered := new_answered,
                             feedback := feedback },
                 next_question := next_question,
                 session_complete := is_complete }, db2)

/-! ## create_session -/

/-- A question payload as returned by `generate_quiz_questions` (a parsed
JSON object; every field access in `create_session` goes through `.get`). -/
structure QuestionPayload where
  question_type : Option String
  question_text : Option String
  options : Option (List String)
  correct_answer : Option String
  explanation : Option String
deriving Repr, DecidableEq

/-- The dictionary returned by `create_session`. -/
structure CreateResult where
  session_id : String
  document_id : String
  difficulty : String
  total_questions : Nat
  first_question : Option NextQuestion
deriving Repr, DecidableEq

/-- The session row built by `create_session`. -/
def session_row (session_id user_id document_id difficulty now : String) (n : Nat) : Session :=
  { id := session_id, user_id := user_id, document_id := document_id,
    status := "active", difficulty := difficulty, total_questions := n,
    answered_questions := 0, correct_answers := 0, started_at := now,
    completed_at := none }

/-- The question rows built by `create_session` (`enumerate(questions, 1)`;
`qids i` is the uuid generated for the question at 0-based position `i`). -/
def question_records (qids : Nat → String) (session_id : String)
    (questions : List QuestionPayload) : List Question :=
  questions.enum.map (fun iq =>
    { id := qids iq.1, session_id := session_id, question_number := iq.1 + 1,
      question_type := iq.2.question_type.getD "unknown",
      question_text := iq.2.question_text.getD "",
      options := iq.2.options,
      correct_answer := iq.2.correct_answer.getD "",
      explanation := iq.2.explanation,
      user_answer := none, is_correct := none, input_method := none,
      answered_at := none })

/-- The batched insert loop (`range(0, len, 100)`) of `create_session`, with
the record store's failure behaviour kept: `insertFail` is the uninterpreted
fault parameter giving, for the i-th `.insert(...).execute()` call that
`create_session` makes, `none` (the call succeeds) or `some e` (the call
raises `e`, inserting nothing); `k` is the index of the next call.  A raise
aborts the loop, leaving the batches already inserted in place — exactly the
source, which has no transaction around the loop. -/
def insertQuestionsBatched (insertFail : Nat → Option String) (k : Nat)
    (recs : List Question) (db : DB) : Except String Unit × DB :=
  if h : recs = [] then (.ok (), db)
  else
    match insertFail k with
    | some e => (.error e, db)
    | none =>
        insertQuestionsBatched insertFail (k + 1) (recs.drop 100)
          { db with questions := db.questions ++ recs.take 100 }
termination_by recs.length
decreasing_by
  simp only [List.length_drop]
  have hpos : 0 < recs.length := List.length_pos.mpr h
  omega

/-- Embeds `create_session` from `services/session_manager.py`:
`generate_quiz_questions` is the uninterpreted parameter `gen` (its arguments
are the ones the source passes), and `insertFail` is the uninterpreted fault
parameter for the record-store insert calls, in the order the source issues
them: call 0 is the `quiz_sessions` row insert, calls 1, 2, ... are the
`questions` batch inserts.  A raising insert propagates out of the function
(the source's outer `except` logs and re-raises), leaving the writes already
made in place — no rollback. -/
def create_session (gen : String → Nat → String → List String → List QuestionPayload)
    (insertFail : Nat → Option String)
    (session_id : String) (qids : Nat → String) (now : String)
    (user_id document_id : String) (num_questions : Nat) (difficulty : String)
    (question_types : List String) (db : DB) : Except String CreateResult × DB :=
  let questions := gen document_id num_questions difficulty question_types
  if questions = [] then (.error "Failed to generate quiz questions", db)
  else
    let session_data :=
      session_row session_id user_id document_id difficulty now questions.length
    match insertFail 0 with
    | some e => (.error e, db)
    | none =>
      let db1 : DB := { db with quiz_sessions := db.quiz_sessions ++ [session_data] }
      let recs := question_records qids session_id questions
      match insertQuestionsBatched insertFail 1 recs db1 with
      | (.error e, db2) => (.error e, db2)
      | (.ok _, db2) =>
        let first_question := recs.head?
        (.ok { session_id := session_id, document_id := document_id,
               difficulty := difficulty, total_questions := questions.length,
               first_question := first_question.map (fun fq =>
                 { question_id := fq.id, question_number := fq.question_number,
                   total_questions := questions.length,
                   question_type := fq.question_type,
                   question_text := fq.question_text, options := fq.options,
                   difficulty := difficulty }) }, db2)

/-! ## Concrete states for witnesses and counterexamples -/

/-- A one-question generator payload used by the creation witnesses. -/
def examplePayload : QuestionPayload :=
  { question_type := some "mcq", question_text := some "Q1", options := none,
    correct_answer := some "A", explanation := none }

/-- A session whose single question is already answered. -/
def exampleSession1 : Session :=
  { id := "s1", user_id := "u1", document_id := "d1", status := "active",
    difficulty := "easy", total_questions := 1, answered_questions := 1,
    correct_answers := 1, started_at := "t0", completed_at := none }

/-- An already-answered question of `exampleSession1`. -/
def exampleAnswered : Question :=
  { id := "q1", session_id := "s1", question_number := 1, question_type := "mcq",
    question_text := "Q1?", options := none, correct_answer := "A",
    explanation := none, user_answer := some "A", is_correct := some true,
    input_method := some "typed", answered_at := some "t1" }

/-- Store state for the already-answered witness. -/
def exampleDB1 : DB := { quiz_sessions := [exampleSession1], questions := [exampleAnswered] }

/-- A 3-question session with two questions answered (both wrong) and one
remaining. -/
def exampleSession2 : Session :=
  { id := "s1", user_id := "u1", document_id := "d1", status := "active",
    difficulty := "easy", total_questions := 3, answered_questions := 2,
    correct_answers := 0, started_at := "t0", completed_at := none }

/-- The remaining unanswered question of `exampleSession2`. -/
def exampleQ3 : Question :=
  { id := "q3", session_id := "s1", question_number := 3, question_type := "mcq",
    question_text := "Q3?", options := none, correct_answer := "A",
    explanation := none, user_answer := none, is_correct := none,
    input_method := none, answered_at := none }

/-- Store state for the submission success witness and the score
counterexample. -/
def exampleDB2 : DB := { quiz_sessions := [exampleSession2], questions := [exampleQ3] }

/-- The session row of `exampleSession2` after the third (correct)
submission. -/
def exampleSession2After : Session :=
  { id := "s1", user_id := "u1", document_id := "d1", status := "completed",
    difficulty := "easy", total_questions := 3, answered_questions := 3,
    correct_answers := 1, started_at := "t0", completed_at := some "t2" }

/-- The question row of `exampleQ3` after the third (correct) submission. -/
def exampleQ3After : Question :=
  { id := "q3", session_id := "s1", question_number := 3, question_type := "mcq",
    question_text := "Q3?", options := none, correct_answer := "A",
    explanation := none, user_answer := some "A", is_correct := some true,
    input_method := some "typed", answered_at := some "t2" }

/-- The store state after the third submission against `exampleDB2`. -/
def exampleDB2After : DB :=
  { quiz_sessions := [exampleSession2After], questions := [exampleQ3After] }

/-! ## Theorems: C10 -/

/-- C10: `sanitize_text` is exactly the order-preserving filter keeping the
characters with code point in the set 9, 10, 13 or in the interval 32-126,
and is consequently idempotent. -/
theorem sanitize_text_is_filter_and_idempotent (s : String) :
    (sanitize_text s).data = s.data.filter allowedCharSpec ∧
    sanitize_text (sanitize_text s) = sanitize_text s := by
  have hpt : ∀ c : Char, keepChar c = allowedCharSpec c := by
    intro c
    rw [Bool.eq_iff_iff]
    simp only [keepChar, allowedCharSpec, Bool.or_eq_true, Bool.and_eq_true,
      decide_eq_true_eq, beq_iff_eq]
    omega
  have hfilter : ∀ s : String, (sanitize_text s).data = s.data.filter allowedCharSpec := by
    intro s
    by_cases hs : s = ""
    · subst hs; rfl
    · simp only [sanitize_text, if_neg hs]
      have hkeep : ∀ c : Char, keepChar c = true → (c.toNat ≠ 0 : Bool) = true := by
        intro c hc
        simp only [keepChar, Bool.or_eq_true, Bool.and_eq_true, decide_eq_true_eq,
          beq_iff_eq] at hc
        simp only [ne_eq, decide_eq_true_eq]
        omega
      have h1 : ∀ l : List Char,
          (l.filter (fun c => (c.toNat ≠ 0 : Bool))).filter keepChar = l.filter keepChar := by
        intro l
        rw [List.filter_filter]
        apply List.filter_congr
        intro c _
        by_cases hk : keepChar c = true
        · simp [hk, hkeep c hk]
        · simp [Bool.eq_false_iff.mpr hk]
      show ((((s.data.filter _).filter _).filter keepChar : List Char)) =
        s.data.filter allowedCharSpec
      rw [h1, h1]
      exact List.filter_congr (fun c _ => hpt c)
  refine ⟨hfilter s, ?_⟩
  have h2 := hfilter (sanitize_text s)
  have h3 := hfilter s
  apply String.ext
  rw [h2, h3, List.filter_filter]
  apply List.filter_congr
  intro c _
  by_cases h : allowedCharSpec c = true <;> simp [h]

/-! ## Theorems: C7, C8 -/

/-- C7: mcq evaluation normalizes both sides by trimming, uppercasing, and
stripping a trailing `)`/`.`/space-delimited option label down to the leading
letter, then compares for exact equality; `evaluate_mcq "A) Paris" "A"` is
correct and `evaluate_mcq "b" "A"` is incorrect. -/
theorem evaluate_mcq_normalized_equality :
    (∀ s, normalize_mcq_answer s = mcqNormalizeSpec s) ∧
    (∀ u c, (evaluate_mcq u c).1 = (mcqNormalizeSpec u == mcqNormalizeSpec c)) ∧
    (evaluate_mcq "A) Paris" "A").1 = true ∧
    (evaluate_mcq "b" "A").1 = false := by
  have hnorm : ∀ s, normalize_mcq_answer s = mcqNormalizeSpec s := by
    intro s
    simp only [normalize_mcq_answer, mcqNormalizeSpec]
    split <;> split <;> rfl
  refine ⟨hnorm, ?_, by decide, by decide⟩
  intro u c
  simp only [evaluate_mcq, hnorm]

/-- C8: true/false evaluation maps the trimmed lowercased user answer through
the fixed synonym sets, compares the result with the membership of the correct
answer in the true set, yields `is_correct = false` with the explanatory
feedback message on unrecognized input; `evaluate_true_false "yep" "true"` is
incorrect and `evaluate_true_false "no" "false"` is correct. -/
theorem evaluate_true_false_synonym_mapping :
    (∀ u c, (evaluate_true_false u c).1 =
      (match tfUserValueSpec u with
       | some b => b == trueVariations.contains (normalize_answer c)
       | none => false)) ∧
    (∀ u c, tfUserValueSpec u = none →
      (evaluate_true_false u c).2 =
        "Could not determine your answer. Please answer with \x27true\x27 or \x27false\x27.") ∧
    (evaluate_true_false "yep" "true").1 = false ∧
    (evaluate_true_false "no" "false").1 = true := by
  have hval : ∀ u c, evaluate_true_false u c =
      (match tfUserValueSpec u with
       | some ub =>
          let is_correct := ub == trueVariations.contains (normalize_answer c)
          (is_correct,
           if is_correct then "Correct! The statement is " ++ c ++ "."
           else "Incorrect. The statement is " ++ c ++ ".")
       | none =>
          (false,
           "Could not determine your answer. Please answer with \x27true\x27 or \x27false\x27.")) := by
    intro u c
    simp only [evaluate_true_false, tfUserValueSpec, normalize_answer]
    split_ifs <;> rfl
  refine ⟨?_, ?_, by decide, by decide⟩
  · intro u c
    rw [hval]
    cases tfUserValueSpec u <;> rfl
  · intro u c h
    rw [hval, h]

/-- Witness for the unrecognized-input conjunct of C8 at the concrete input
`"yep"`/`"true"`. -/
theorem evaluate_true_false_synonym_mapping_witness :
    (evaluate_true_false "yep" "true").2 =
      "Could not determine your answer. Please answer with \x27true\x27 or \x27false\x27." :=
  evaluate_true_false_synonym_mapping.2.1 "yep" "true" (by decide)

/-! ## Theorems: C9 -/

/-- C9: free-text evaluation always returns a verdict; when the primary and
fallback oracles both return empty, the deterministic backstop marks answers
of trimmed length under 10 incorrect and all others correct with an
evaluation-unavailable disclaimer; when the chosen oracle response fails JSON
parsing, the answer is marked correct with a parse-failure disclaimer. -/
theorem evaluate_free_text_degradation (ck : String → String → String)
    (co : String → String → ℚ → String)
    (jl : String → Option (Option Bool × Option String)) (u c q : String) :
    (freeTextResponse ck co u c q = "" →
      evaluate_free_text ck co jl u c q =
        (if (pyStrip u).data.length < 10 then
          (false, "Your answer seems too brief. Please provide more detail.", c)
         else (true, "Answer received. (Automated evaluation unavailable)", c))) ∧
    (freeTextResponse ck co u c q ≠ "" →
      jl (cleanResponse (freeTextResponse ck co u c q)) = none →
      evaluate_free_text ck co jl u c q =
        (true, "Answer received. (Evaluation parsing failed)", c)) := by
  constructor
  · intro h
    simp only [evaluate_free_text, h]
    rfl
  · intro h hj
    have hb : (freeTextResponse ck co u c q == "") = false := by
      simpa using h
    simp only [evaluate_free_text, hb, hj]
    rfl

/-- Witness for C9 at concrete oracles: both oracles failing on a short
answer triggers the too-brief verdict; a non-empty unparsable response
triggers the parse-failure verdict. -/
theorem evaluate_free_text_degradation_witness :
    evaluate_free_text (fun _ _ => "") (fun _ _ _ => "") (fun _ => none) "hi" "ans" "q" =
      (false, "Your answer seems too brief. Please provide more detail.", "ans") ∧
    evaluate_free_text (fun _ _ => "resp") (fun _ _ _ => "") (fun _ => none) "hi" "ans" "q" =
      (true, "Answer received. (Evaluation parsing failed)", "ans") := by
  constructor
  · have h := (evaluate_free_text_degradation (fun _ _ => "") (fun _ _ _ => "")
      (fun _ => none) "hi" "ans" "q").1 rfl
    exact h.trans (by decide)
  · exact (evaluate_free_text_degradation (fun _ _ => "resp") (fun _ _ _ => "")
      (fun _ => none) "hi" "ans" "q").2 (by decide) rfl

/-! ## Theorems: C5, C6 -/

/-- C5 counterexample: a length mismatch where one list is empty does not
fail — with no chunks and one embedding the lengths differ, yet
`store_vectors` returns `ok []` instead of the length-mismatch error. -/
theorem store_vectors_mismatch_counterexample :
    ([] : List ChunkRec).length ≠ [([1] : EmbVec)].length ∧
    store_vectors (fun _ => "p0") "doc" [] [[1]] [] = (.ok [], []) :=
  ⟨by decide, rfl⟩

/-- C5 (amended): for non-empty chunk and embedding lists of different
lengths, `store_vectors` fails with the length-mismatch error and stores
nothing. -/
theorem store_vectors_mismatch_error (genId : Nat → String) (document_id : String)
    (chunks : List ChunkRec) (embeddings : List EmbVec) (stored : List StoredPoint)
    (hc : chunks ≠ []) (he : embeddings ≠ [])
    (hlen : chunks.length ≠ embeddings.length) :
    store_vectors genId document_id chunks embeddings stored =
      (.error "Chunks and embeddings must have the same length", stored) := by
  rw [store_vectors, if_neg (by simp [hc, he]), if_pos hlen]

/-- Witness for C5 (amended) at a concrete mismatched pair. -/
theorem store_vectors_mismatch_error_witness :
    store_vectors (fun _ => "p0") "doc"
      [{ content := "c", chunk_index := 0, metadata := [] }] [[1], [2]] [] =
      (.error "Chunks and embeddings must have the same length", []) :=
  store_vectors_mismatch_error (fun _ => "p0") "doc"
    [{ content := "c", chunk_index := 0, metadata := [] }] [[1], [2]] []
    (by decide) (by decide) (by decide)

/-- C6: when either input list is empty, `store_vectors` returns an empty id
list without failing and stores nothing, even when the other list is
non-empty. -/
theorem store_vectors_empty_bypass (genId : Nat → String) (document_id : String)
    (chunks : List ChunkRec) (embeddings : List EmbVec) (stored : List StoredPoint)
    (h : chunks = [] ∨ embeddings = []) :
    store_vectors genId document_id chunks embeddings stored = (.ok [], stored) := by
  rw [store_vectors, if_pos h]

/-- Witness for C6: empty chunks against a non-empty embedding list. -/
theorem store_vectors_empty_bypass_witness :
    store_vectors (fun _ => "p0") "doc" [] [[1]]
      [{ id := "old", vector := [0],
         payload := { document_id := "doc", content := "c", chunk_index := 0,
                      metadata := [] } }] =
      (.ok [],
       [{ id := "old", vector := [0],
          payload := { document_id := "doc", content := "c", chunk_index := 0,
                       metadata := [] } }]) :=
  store_vectors_empty_bypass (fun _ => "p0") "doc" [] [[1]] _ (Or.inl rfl)

/-! ## Theorems: C4 -/

/-- The head surviving `dropWhile p` fails `p`. -/
theorem head?_dropWhile_false {α} (p : α → Bool) (l : List α) :
    ∀ x, (l.dropWhile p).head? = some x → p x = false := by
  induction l with
  | nil => intro x hx; cases hx
  | cons a t ih =>
    intro x hx
    rw [List.dropWhile_cons] at hx
    by_cases h : p a = true
    · rw [if_pos h] at hx
      exact ih x hx
    · rw [if_neg h] at hx
      rw [List.head?_cons] at hx
      cases hx
      exact Bool.eq_false_iff.mpr h

/-- A non-empty stripped string contains a non-whitespace character. -/
theorem pyStrip_not_all_whitespace (s : String) (h : pyStrip s ≠ "") :
    (pyStrip s).data.all pyWhitespace = false := by
  rw [Bool.eq_false_iff]
  intro hall
  set B := ((s.data.dropWhile pyWhitespace).reverse.dropWhile pyWhitespace) with hB
  have hdata : (pyStrip s).data = B.reverse := rfl
  have hBne : B ≠ [] := by
    intro hB0
    apply h
    show (⟨B.reverse⟩ : String) = ""
    rw [hB0]
    rfl
  cases hBhead : B.head? with
  | none => exact hBne (List.head?_eq_none_iff.mp hBhead)
  | some x =>
    have hpx : pyWhitespace x = false := head?_dropWhile_false _ _ x hBhead
    have hxB : x ∈ B := by
      cases hBc : B with
      | nil => rw [hBc] at hBhead; cases hBhead
      | cons a t =>
        rw [hBc, List.head?_cons] at hBhead
        have hax : a = x := by injection hBhead
        rw [← hax]
        exact List.mem_cons_self a t
    have hxs : x ∈ (pyStrip s).data := by
      rw [hdata]
      exact List.mem_reverse.mpr hxB
    have := (List.all_eq_true.mp hall) x hxs
    rw [hpx] at this
    cases this

/-- C4 counterexample: with a splitter emitting a whitespace-only segment
before a surviving one, the surviving chunk keeps its pre-filter position 1,
so the index list is not dense from zero. -/
theorem chunk_text_dense_index_counterexample :
    (chunk_text (fun _ _ _ => [" ", "a"]) "x").map (fun r => r.chunk_index) ≠
      List.range ((chunk_text (fun _ _ _ => [" ", "a"]) "x").length) := by
  decide

/-- C4 (amended): every chunk is non-blank; blank input yields an empty list;
each surviving chunk carries the position of its segment in the raw splitter
output (before filtering); so the indices are dense from zero whenever no
segment is filtered out. -/
theorem chunk_text_filter_positions (split_text : Nat → Nat → String → List String)
    (text : String) (cs co : Nat) :
    (∀ r ∈ chunk_text split_text text cs co,
      r.content ≠ "" ∧ r.content.data.all pyWhitespace = false) ∧
    (pyStrip text = "" → chunk_text split_text text cs co = []) ∧
    (pyStrip text ≠ "" →
      (chunk_text split_text text cs co).map (fun r => (r.chunk_index, r.content)) =
        ((split_text cs co text).enum.filter
          (fun ic => !(ic.2 == "") && !(pyStrip ic.2 == ""))).map
          (fun ic => (ic.1, pyStrip ic.2))) ∧
    (pyStrip text ≠ "" →
      (split_text cs co text).all (fun c => !(c == "") && !(pyStrip c == "")) = true →
      (chunk_text split_text text cs co).map (fun r => r.chunk_index) =
        List.range (split_text cs co text).length) := by
  refine ⟨?_, ?_, ?_, ?_⟩
  · intro r hr
    rw [chunk_text] at hr
    split at hr
    · cases hr
    · obtain ⟨ic, hic, hfr⟩ := List.mem_map.mp hr
      have hp := (List.mem_filter.mp hic).2
      rw [Bool.and_eq_true] at hp
      have hps : pyStrip ic.2 ≠ "" := by
        intro h0
        rw [h0] at hp
        simp at hp
      have hcontent : r.content = pyStrip ic.2 := by rw [← hfr]
      constructor
      · rw [hcontent]; exact hps
      · rw [hcontent]; exact pyStrip_not_all_whitespace _ hps
  · intro h
    rw [chunk_text, if_pos (Or.inr h)]
  · intro h
    have hne : ¬(text = "" ∨ pyStrip text = "") := by
      rintro (h0 | h0)
      · apply h; rw [h0]; rfl
      · exact h h0
    rw [chunk_text, if_neg hne, List.map_map]
    rfl
  · intro h hall
    have hne : ¬(text = "" ∨ pyStrip text = "") := by
      rintro (h0 | h0)
      · apply h; rw [h0]; rfl
      · exact h h0
    rw [chunk_text, if_neg hne, List.map_map]
    have hfe : ((split_text cs co text).enum.filter
        (fun ic => !(ic.2 == "") && !(pyStrip ic.2 == ""))) =
        (split_text cs co text).enum := by
      apply List.filter_eq_self.mpr
      intro ic hic
      apply List.all_eq_true.mp hall
      obtain ⟨i, x⟩ := ic
      rw [List.mk_mem_enum_iff_getElem?] at hic
      exact List.getElem?_mem hic
    rw [hfe]
    exact List.enum_map_fst _

/-- Witness for C4 (amended) with a splitter that emits only non-blank
segments: indices are dense from zero. -/
theorem chunk_text_filter_positions_witness :
    pyStrip "ab" ≠ "" ∧
    (["ab", "cd"].all (fun c => !(c == "") && !(pyStrip c == "")) = true) ∧
    (chunk_text (fun _ _ _ => ["ab", "cd"]) "ab").map (fun r => r.chunk_index) =
      List.range (["ab", "cd"] : List String).length :=
  ⟨by decide, by decide,
   (chunk_text_filter_positions (fun _ _ _ => ["ab", "cd"]) "ab" 1000 200).2.2.2
     (by decide) (by decide)⟩

/-! ## Theorems: C3 -/

/-- When every insert call succeeds, the batched insert loop appends all
records, in order. -/
theorem insertQuestionsBatched_ok (insertFail : Nat → Option String)
    (hok : ∀ j, insertFail j = none) (recs : List Question) (k : Nat) (db : DB) :
    insertQuestionsBatched insertFail k recs db =
      (.ok (), { db with questions := db.questions ++ recs }) := by
  have H : ∀ (n : Nat) (recs : List Question), recs.length ≤ n → ∀ (k : Nat) (db : DB),
      insertQuestionsBatched insertFail k recs db =
        (.ok (), { db with questions := db.questions ++ recs }) := by
    intro n
    induction n with
    | zero =>
      intro recs hlen k db
      have hnil : recs = [] := List.eq_nil_of_length_eq_zero (Nat.le_zero.mp hlen)
      subst hnil
      rw [insertQuestionsBatched]
      simp
    | succ n ih =>
      intro recs hlen k db
      rw [insertQuestionsBatched]
      by_cases hr : recs = []
      · rw [dif_pos hr]
        subst hr
        simp
      · rw [dif_neg hr]
        simp only [hok k]
        rw [ih (recs.drop 100) (by
          rw [List.length_drop]
          have hpos : 0 < recs.length := List.length_pos.mpr hr
          omega)]
        simp [List.append_assoc, List.take_append_drop]
  exact H recs.length recs Nat.le.refl k db

/-- C3 counterexample: with the session-row insert succeeding and the first
question-batch insert raising, `create_session` propagates the store error
and leaves an orphan session row with no question rows — the final store is
neither a fully-populated session with its question set nor nothing, so
session creation is not all-or-nothing. -/
theorem create_session_partial_failure_counterexample :
    create_session (fun _ _ _ _ => [examplePayload])
      (fun k => if k = 0 then none else some "insert failed")
      "sid" (fun _ => "qid0") "now" "u" "d" 1 "easy" []
      { quiz_sessions := [], questions := [] } =
      (.error "insert failed",
       { quiz_sessions := [session_row "sid" "u" "d" "easy" "now" 1],
         questions := [] }) ∧
    ({ quiz_sessions := [session_row "sid" "u" "d" "easy" "now" 1],
       questions := [] } : DB) ≠ { quiz_sessions := [], questions := [] } := by
  constructor
  · have hbatch : insertQuestionsBatched
        (fun k => if k = 0 then none else some "insert failed") 1
        (question_records (fun _ => "qid0") "sid" [examplePayload])
        { quiz_sessions := [session_row "sid" "u" "d" "easy" "now" 1],
          questions := [] } =
        (.error "insert failed",
         { quiz_sessions := [session_row "sid" "u" "d" "easy" "now" 1],
           questions := [] }) := by
      rw [insertQuestionsBatched, dif_neg (by decide)]
      simp
    rw [create_session]
    simp [hbatch]
  · decide

/-- C3 (amended): `create_session` fails with the generation-failed error and
an untouched store when generation returns no questions; a failing session
insert likewise creates nothing; and when every record-store insert succeeds
the store gains exactly one fully populated session row together with one
question row per generated question.  (A question insert failing after the
session insert leaves a partial state — exhibited by the counterexample.) -/
theorem create_session_all_or_nothing
    (gen : String → Nat → String → List String → List QuestionPayload)
    (insertFail : Nat → Option String)
    (session_id : String) (qids : Nat → String) (now : String)
    (user_id document_id : String) (num_questions : Nat) (difficulty : String)
    (question_types : List String) (db : DB) :
    (gen document_id num_questions difficulty question_types = [] →
      create_session gen insertFail session_id qids now user_id document_id
        num_questions difficulty question_types db =
        (.error "Failed to generate quiz questions", db)) ∧
    (gen document_id num_questions difficulty question_types ≠ [] →
      ∀ e, insertFail 0 = some e →
        create_session gen insertFail session_id qids now user_id document_id
          num_questions difficulty question_types db = (.error e, db)) ∧
    (gen document_id num_questions difficulty question_types ≠ [] →
      (∀ j, insertFail j = none) →
      (∃ r : CreateResult,
        (create_session gen insertFail session_id qids now user_id document_id
          num_questions difficulty question_types db).1 = .ok r) ∧
      (create_session gen insertFail session_id qids now user_id document_id
        num_questions difficulty question_types db).2 =
        { quiz_sessions := db.quiz_sessions ++
            [session_row session_id user_id document_id difficulty now
              (gen document_id num_questions difficulty question_types).length],
          questions := db.questions ++
            question_records qids session_id
              (gen document_id num_questions difficulty question_types) } ∧
      (question_records qids session_id
        (gen document_id num_questions difficulty question_types)).length =
        (gen document_id num_questions difficulty question_types).length) := by
  refine ⟨?_, ?_, ?_⟩
  · intro h
    rw [create_session]
    simp only [h, if_pos]
  · intro h e he
    simp only [create_session, if_neg h, he]
  · intro h hok
    refine ⟨?_, ?_, ?_⟩
    · refine ⟨{ session_id := session_id, document_id := document_id,
                difficulty := difficulty,
                total_questions :=
                  (gen document_id num_questions difficulty question_types).length,
                first_question := (question_records qids session_id
                    (gen document_id num_questions difficulty question_types)).head?.map
                  (fun fq =>
                    { question_id := fq.id, question_number := fq.question_number,
                      total_questions :=
                        (gen document_id num_questions difficulty question_types).length,
                      question_type := fq.question_type,
                      question_text := fq.question_text,
                      options := fq.options, difficulty := difficulty }) }, ?_⟩
      simp only [create_session, if_neg h, hok 0,
        insertQuestionsBatched_ok insertFail hok]
    · simp only [create_session, if_neg h, hok 0,
        insertQuestionsBatched_ok insertFail hok]
    · simp [question_records]

/-- Witness for C3 (amended): a generator returning nothing leaves the empty
store untouched; with one generated question, a failing session insert
creates nothing, and fully successful inserts populate exactly one session
row and its question row. -/
theorem create_session_all_or_nothing_witness :
    create_session (fun _ _ _ _ => []) (fun _ => none) "sid" (fun _ => "qid0")
      "now" "u" "d" 1 "easy" [] { quiz_sessions := [], questions := [] } =
      (.error "Failed to generate quiz questions",
       { quiz_sessions := [], questions := [] }) ∧
    create_session (fun _ _ _ _ => [examplePayload]) (fun _ => some "db down")
      "sid" (fun _ => "qid0") "now" "u" "d" 1 "easy" []
      { quiz_sessions := [], questions := [] } =
      (.error "db down", { quiz_sessions := [], questions := [] }) ∧
    (create_session (fun _ _ _ _ => [examplePayload]) (fun _ => none)
      "sid" (fun _ => "qid0") "now" "u" "d" 1 "easy" []
      { quiz_sessions := [], questions := [] }).2 =
      { quiz_sessions := [session_row "sid" "u" "d" "easy" "now" 1],
        questions := question_records (fun _ => "qid0") "sid" [examplePayload] } := by
  refine ⟨?_, ?_, ?_⟩
  · exact (create_session_all_or_nothing (fun _ _ _ _ => []) (fun _ => none) "sid"
      (fun _ => "qid0") "now" "u" "d" 1 "easy" []
      { quiz_sessions := [], questions := [] }).1 rfl
  · exact (create_session_all_or_nothing (fun _ _ _ _ => [examplePayload])
      (fun _ => some "db down") "sid" (fun _ => "qid0") "now" "u" "d" 1 "easy" []
      { quiz_sessions := [], questions := [] }).2.1 (by decide) "db down" rfl
  · have h := (create_session_all_or_nothing (fun _ _ _ _ => [examplePayload])
      (fun _ => none) "sid" (fun _ => "qid0") "now" "u" "d" 1 "easy" []
      { quiz_sessions := [], questions := [] }).2.2 (by decide) (fun _ => rfl)
    simpa using h.2.1

/-! ## Theorems: C1 -/

/-- The first element of a filtered list satisfies the filter predicate. -/
theorem head?_filter_pred {α} (p : α → Bool) (l : List α) (x : α)
    (h : (l.filter p).head? = some x) : p x = true := by
  have hx : x ∈ l.filter p := by
    cases hf : l.filter p with
    | nil => rw [hf] at h; cases h
    | cons a t =>
      rw [hf, List.head?_cons] at h
      have hax : a = x := by injection h
      rw [← hax]
      exact List.mem_cons_self a t
  exact (List.mem_filter.mp hx).2

/-- Filtering after a predicate-preserving map commutes with taking the first
match. -/
theorem head?_filter_map_pres {α} (f : α → α) (p : α → Bool)
    (hf : ∀ x, p (f x) = p x) (l : List α) :
    ((l.map f).filter p).head? = ((l.filter p).head?).map f := by
  induction l with
  | nil => rfl
  | cons a t ih =>
    rw [List.map_cons, List.filter_cons, List.filter_cons, hf a]
    by_cases h : p a = true
    · rw [if_pos h, if_pos h, List.head?_cons, List.head?_cons]
      rfl
    · rw [if_neg h, if_neg h]
      exact ih

/-- C1: submitting an answer to an already-answered question of an active
session fails with the already-answered validation error and leaves the store
— session counters and the answer fields of the question included — unchanged. -/
theorem submit_answer_already_answered (ck : String → String → String)
    (co : String → String → ℚ → String)
    (jl : String → Option (Option Bool × Option String))
    (now session_id user_id question_id answer input_method : String) (db : DB)
    (s : Session) (q : Question) (a : String)
    (hs : findSession db session_id user_id = some s) (hactive : s.status = "active")
    (hq : findQuestion db question_id session_id = some q)
    (hans : q.user_answer = some a) :
    submit_answer ck co jl now session_id user_id question_id answer input_method db =
      (.error "Question already answered", db) := by
  rw [submit_answer, hs]
  simp only [hactive, ne_eq, not_true_eq_false, not_false_eq_true, if_neg, hq, hans]

/-- Witness for C1 at a concrete one-question store. -/
theorem submit_answer_already_answered_witness :
    submit_answer (fun _ _ => "") (fun _ _ _ => "") (fun _ => none) "t2" "s1" "u1" "q1"
      "B" "typed" exampleDB1 = (.error "Question already answered", exampleDB1) :=
  submit_answer_already_answered (fun _ _ => "") (fun _ _ _ => "") (fun _ => none)
    "t2" "s1" "u1" "q1" "B" "typed" exampleDB1 exampleSession1 exampleAnswered "A"
    rfl rfl rfl rfl

/-! ## Theorems: C2 -/

/-- C2 (amended): for an active session with `answered_questions <
total_questions`, a successful submission increments `answered_questions` by
one and `correct_answers` by one exactly when the grading verdict is correct,
transitions the session to `completed` with `completed_at` stamped if and
only if the new answered count equals `total_questions`, and afterwards
`get_session` reports the score as `correct / total * 100` rounded to one
decimal; `get_session` reports a score only for completed sessions. -/
theorem submit_answer_success (ck : String → String → String)
    (co : String → String → ℚ → String)
    (jl : String → Option (Option Bool × Option String))
    (now session_id user_id question_id answer input_method : String) (db : DB)
    (s : Session) (q : Question)
    (hs : findSession db session_id user_id = some s) (hactive : s.status = "active")
    (hq : findQuestion db question_id session_id = some q)
    (hun : q.user_answer = none)
    (hlt : s.answered_questions < s.total_questions) :
    (∃ r : SubmitResponse,
      (submit_answer ck co jl now session_id user_id question_id answer
        input_method db).1 = .ok r) ∧
    findSession (submit_answer ck co jl now session_id user_id question_id answer
        input_method db).2 session_id user_id = some
      { s with
        answered_questions := s.answered_questions + 1,
        correct_answers := s.correct_answers +
          (if (evaluate_answer ck co jl q.question_type answer q.correct_answer
              q.question_text).is_correct then 1 else 0),
        status := if s.answered_questions + 1 = s.total_questions then "completed"
                  else s.status,
        completed_at := if s.answered_questions + 1 = s.total_questions then some now
                        else s.completed_at } ∧
    (s.answered_questions + 1 = s.total_questions →
      ∃ view : SessionView,
        get_session session_id user_id (submit_answer ck co jl now session_id user_id
          question_id answer input_method db).2 = some view ∧
        view.status = "completed" ∧ view.completed_at = some now ∧
        view.score_percentage = some (pyRound1
          ((((s.correct_answers +
              (if (evaluate_answer ck co jl q.question_type answer q.correct_answer
                  q.question_text).is_correct then 1 else 0) : ℕ) : ℚ) /
            (s.total_questions : ℚ)) * 100))) ∧
    (∀ (db0 : DB) (sid0 uid0 : String) (view : SessionView),
      get_session sid0 uid0 db0 = some view → view.score_percentage ≠ none →
      view.status = "completed") := by
  have hps : (fun t : Session => t.id == session_id && t.user_id == user_id) s = true :=
    head?_filter_pred _ db.quiz_sessions s hs
  have hsid : (s.id == session_id) = true := by
    rw [Bool.and_eq_true] at hps
    exact hps.1
  have hcB : decide (s.total_questions ≤ s.answered_questions + 1) =
      decide (s.answered_questions + 1 = s.total_questions) := by
    rw [decide_eq_decide]
    omega
  have hpres : ∀ t : Session,
      (fun t : Session => t.id == session_id && t.user_id == user_id)
        (if (t.id == session_id) = true then
          { t with
            answered_questions := s.answered_questions + 1,
            correct_answers := s.correct_answers +
              (if (evaluate_answer ck co jl q.question_type answer q.correct_answer
                  q.question_text).is_correct = true then 1 else 0),
            status := if decide (s.total_questions ≤ s.answered_questions + 1) = true
                      then "completed" else t.status,
            completed_at := if decide (s.total_questions ≤ s.answered_questions + 1) = true
                            then some now else t.completed_at }
         else t) =
      (fun t : Session => t.id == session_id && t.user_id == user_id) t := by
    intro t
    by_cases ht : (t.id == session_id) = true
    · rw [if_pos ht]
    · rw [if_neg ht]
  have h2 : findSession (submit_answer ck co jl now session_id user_id question_id
      answer input_method db).2 session_id user_id = some
      { s with
        answered_questions := s.answered_questions + 1,
        correct_answers := s.correct_answers +
          (if (evaluate_answer ck co jl q.question_type answer q.correct_answer
              q.question_text).is_correct then 1 else 0),
        status := if s.answered_questions + 1 = s.total_questions then "completed"
                  else s.status,
        completed_at := if s.answered_questions + 1 = s.total_questions then some now
                        else s.completed_at } := by
    rw [submit_answer, hs]
    simp only [hactive, ne_eq, not_true_eq_false, not_false_eq_true, if_neg, hq, hun]
    rw [findSession]
    rw [head?_filter_map_pres _ _ hpres db.quiz_sessions]
    have hs' : (db.quiz_sessions.filter
        (fun t : Session => t.id == session_id && t.user_id == user_id)).head? =
        some s := hs
    rw [hs']
    rw [Option.map]
    rw [if_pos hsid, hcB]
    simp only [decide_eq_true_eq]
    rw [hactive]
  refine ⟨?_, h2, ?_, ?_⟩
  · rw [submit_answer, hs]
    simp only [hactive, ne_eq, not_true_eq_false, not_false_eq_true, if_neg, hq, hun]
    exact ⟨_, rfl⟩
  · intro hc
    rw [get_session, h2]
    refine ⟨_, rfl, ?_, ?_, ?_⟩
    · show (if s.answered_questions + 1 = s.total_questions then "completed"
        else s.status) = "completed"
      rw [if_pos hc]
    · show (if s.answered_questions + 1 = s.total_questions then some now
        else s.completed_at) = some now
      rw [if_pos hc]
    · show (if (if s.answered_questions + 1 = s.total_questions then "completed"
          else s.status) = "completed" ∧ 0 < s.total_questions then
        some (pyRound1 ((((s.correct_answers +
          (if (evaluate_answer ck co jl q.question_type answer q.correct_answer
              q.question_text).is_correct then 1 else 0) : ℕ) : ℚ) /
          (s.total_questions : ℚ)) * 100)) else none) = _
      rw [if_pos ⟨by rw [if_pos hc], by omega⟩]
  · intro db0 sid0 uid0 view hget hne
    rw [get_session] at hget
    cases hfs : findSession db0 sid0 uid0 with
    | none => rw [hfs] at hget; cases hget
    | some sess =>
      rw [hfs] at hget
      simp only at hget
      have hview := Option.some.inj hget
      by_cases hC : sess.status = "completed" ∧ 0 < sess.total_questions
      · rw [← hview]
        exact hC.1
      · exfalso
        apply hne
        rw [← hview]
        show (if sess.status = "completed" ∧ 0 < sess.total_questions then _ else none) = none
        rw [if_neg hC]

/-- Witness for C2 (amended): submitting the correct answer to the last
question of `exampleDB2` succeeds, completes the session, and reports the
rounded score for 1 correct out of 3. -/
theorem submit_answer_success_witness :
    (∃ r : SubmitResponse,
      (submit_answer (fun _ _ => "") (fun _ _ _ => "") (fun _ => none) "t2" "s1" "u1"
        "q3" "A" "typed" exampleDB2).1 = .ok r) ∧
    (∃ view : SessionView,
      get_session "s1" "u1" (submit_answer (fun _ _ => "") (fun _ _ _ => "")
        (fun _ => none) "t2" "s1" "u1" "q3" "A" "typed" exampleDB2).2 = some view ∧
      view.status = "completed" ∧ view.completed_at = some "t2" ∧
      view.score_percentage =
        some (pyRound1 ((((1 : ℕ) : ℚ) / ((3 : ℕ) : ℚ)) * 100))) := by
  have h := submit_answer_success (fun _ _ => "") (fun _ _ _ => "") (fun _ => none)
    "t2" "s1" "u1" "q3" "A" "typed" exampleDB2 exampleSession2 exampleQ3
    rfl rfl rfl rfl (by decide)
  refine ⟨h.1, ?_⟩
  obtain ⟨view, hv, hst, hca, hsc⟩ := h.2.2.1 (by decide)
  refine ⟨view, hv, hst, hca, ?_⟩
  rw [hsc]
  have hval : (evaluate_answer (fun _ _ => "") (fun _ _ _ => "") (fun _ => none)
      exampleQ3.question_type "A" exampleQ3.correct_answer
      exampleQ3.question_text).is_correct = true := rfl
  rw [hval]
  norm_num [exampleSession2]

/-- C2 counterexample: after completing `exampleDB2` with one correct answer
out of three, `get_session` reports the score 33.3 (one-decimal rounding),
which differs from the exact value `1/3 * 100` the claim states. -/
theorem get_session_score_rounding_counterexample :
    ((get_session "s1" "u1" (submit_answer (fun _ _ => "") (fun _ _ _ => "")
        (fun _ => none) "t2" "s1" "u1" "q3" "A" "typed" exampleDB2).2).map
      (fun v => v.score_percentage)) = some (some ((333 : ℚ) / 10)) ∧
    ((333 : ℚ) / 10) ≠ ((1 : ℚ) / 3) * 100 := by
  have hsc : pyRound1 ((((1 : ℕ) : ℚ) / ((3 : ℕ) : ℚ)) * 100) = 333 / 10 := by
    have h0 : (((1 : ℕ) : ℚ) / ((3 : ℕ) : ℚ)) * 100 = 1000 / 3 / 10 := by
      push_cast
      norm_num
    rw [pyRound1, h0]
    have h1 : (10 : ℚ) * (1000 / 3 / 10) = 1000 / 3 := by norm_num
    rw [h1]
    have h2 : roundHalfEven (1000 / 3) = 333 := by
      rw [roundHalfEven]
      have hf : ((1000 : ℚ) / 3).floor = 333 := by
        rw [Rat.floor_def']
        norm_num
      rw [hf]
      norm_num
    rw [h2]
    norm_num
  constructor
  · have hdb : (submit_answer (fun _ _ => "") (fun _ _ _ => "") (fun _ => none)
        "t2" "s1" "u1" "q3" "A" "typed" exampleDB2).2 = exampleDB2After := by decide
    rw [hdb, ← hsc]
    rfl
  · norm_num
